import Mathlib

/-!
Shallow embedding of `psycopg_wrapper/PostgresConnect.py`.

The wrapper builds SQL strings by Python `%`-formatting and string
concatenation, classifies statements with `is_crud` (from
`psycopg_wrapper/validator.py`, modelled from the spec since that file is
not part of the sources here), acquires connections from a pool with an
unbounded retry loop, executes, and releases connections.

Pure string builders are embedded as Lean functions on `String`; the
stateful execution path (pool, cursor, commit) is embedded as explicit
state passing over a `PoolState` together with an event trace.
-/

namespace PostgresWrapper

/-- Parameter values bound into a statement (the claims only exercise
integer values, so parameters are embedded as `Int`). -/
abbrev Param := Int

/-- The Python `where` argument: `None`, a one-element tuple
`(fragment,)`, or a two-element tuple `(fragment, params)`. -/
abbrev WhereArg := Option (String × Option (List Param))

/-- Python truthiness of an optional string argument (`None` and `""` are
falsy), as used by `_returning` and the `returning` branches. -/
def truthyStr : Option String → Bool
  | none => false
  | some s => s ≠ ""

/-- Embeds `_where`: appends `' WHERE %s' % where[0]` when a non-empty
tuple is given, else the empty string. -/
def whereClause : WhereArg → String
  | none => ""
  | some (frag, _) => " WHERE " ++ frag

/-- Embeds `_order`: `' ORDER BY %s' % order[0]`, plus `' %s' % order[1]`
when the tuple has a second component. -/
def orderClause : Option (String × Option String) → String
  | none => ""
  | some (col, none) => " ORDER BY " ++ col
  | some (col, some dir) => " ORDER BY " ++ col ++ " " ++ dir

/-- Embeds `_limit`: `' LIMIT %d' % limit` when `limit` is truthy
(`None` and `0` are falsy in Python). -/
def limitClause : Option Int → String
  | none => ""
  | some n => if n = 0 then "" else " LIMIT " ++ toString n

/-- Embeds `_offset`: `' OFFSET %d' % offset` when `offset` is truthy. -/
def offsetClause : Option Int → String
  | none => ""
  | some n => if n = 0 then "" else " OFFSET " ++ toString n

/-- Embeds `_returning`: `' RETURNING %s' % returning` when truthy. -/
def returningClause (returning : Option String) : String :=
  if truthyStr returning then " RETURNING " ++ returning.getD "" else ""

/-- Embeds `_format_insert`: the comma-joined column names and the
comma-joined `%s` placeholders (Python dicts preserve insertion order, so
a dict is embedded as an association list). -/
def format_insert (data : List (String × Param)) : String × String :=
  (String.intercalate "," (data.map Prod.fst),
   String.intercalate "," (data.map fun _ => "%s"))

/-- Embeds `_format_update`: `"=%s,".join(data.keys()) + "=%s"`. -/
def format_update (data : List (String × Param)) : String :=
  String.intercalate "=%s," (data.map Prod.fst) ++ "=%s"

/-- Embeds the statement built by `select`:
`'SELECT %s FROM %s' % (", ".join(fields), table)` followed by the
where/order/limit/offset fragments. -/
def select_sql (table : String) (fields : List String) (w : WhereArg)
    (o : Option (String × Option String)) (l off : Option Int) : String :=
  "SELECT " ++ String.intercalate ", " fields ++ " FROM " ++ table
    ++ whereClause w ++ orderClause o ++ limitClause l ++ offsetClause off

/-- Embeds the statement built by `insert`:
`'INSERT INTO %s (%s) VALUES(%s)'` plus the returning fragment. -/
def insert_sql (table : String) (data : List (String × Param))
    (returning : Option String) : String :=
  "INSERT INTO " ++ table ++ " (" ++ (format_insert data).fst ++ ") VALUES("
    ++ (format_insert data).snd ++ ")" ++ returningClause returning

/-- Embeds the statement built by `update`:
`'UPDATE %s SET %s'` plus the where and returning fragments. -/
def update_sql (table : String) (data : List (String × Param)) (w : WhereArg)
    (returning : Option String) : String :=
  "UPDATE " ++ table ++ " SET " ++ format_update data
    ++ whereClause w ++ returningClause returning

/-- Embeds `update`'s parameter expression
`list(data.values()) + where[1] if where and len(where) > 1 else list(data.values())`:
the new values, with the where params appended only when a two-element
where tuple was supplied. -/
def update_params (data : List (String × Param)) (w : WhereArg) : List Param :=
  match w with
  | some (_, some ps) => data.map Prod.snd ++ ps
  | _ => data.map Prod.snd

/-- Embeds the statement built by `delete`: `'DELETE FROM %s'` plus the
where and returning fragments. -/
def delete_sql (table : String) (w : WhereArg) (returning : Option String) : String :=
  "DELETE FROM " ++ table ++ whereClause w ++ returningClause returning

/-- Embeds `delete`'s parameter expression
`where[1] if where and len(where) > 1 else None`. -/
def delete_params (w : WhereArg) : Option (List Param) :=
  match w with
  | some (_, some ps) => some ps
  | _ => none

/-- Embeds the statement built by `truncate`: `'TRUNCATE %s'` with the
optional modifiers appended before the `%`-substitution of the table. -/
def truncate_sql (table : String) (restart_identity cascade : Bool) : String :=
  "TRUNCATE " ++ table
    ++ (if restart_identity then " RESTART IDENTITY" else "")
    ++ (if cascade then " CASCADE" else "")

/-- Embeds the statement built by `drop`: `sql = 'DROP TABLE IF EXISTS %s'`,
then `sql += ' CASCADE'` when requested, then `sql % table`. -/
def drop_sql (table : String) (cascade : Bool) : String :=
  if cascade then "DROP TABLE IF EXISTS " ++ table ++ " CASCADE"
  else "DROP TABLE IF EXISTS " ++ table

/-- Embeds the statement built by `create`: `'CREATE TABLE %s (%s)'`. -/
def create_sql (table schema : String) : String :=
  "CREATE TABLE " ++ table ++ " (" ++ schema ++ ")"

/-- Modelled from the spec: the mutating CRUD keywords that
`psycopg_wrapper/validator.py` (absent from the sources) matches at the
start of a statement, given here directly as character lists. -/
def crudKeywords : List (List Char) :=
  [['I', 'N', 'S', 'E', 'R', 'T'],
   ['U', 'P', 'D', 'A', 'T', 'E'],
   ['D', 'E', 'L', 'E', 'T', 'E'],
   ['C', 'R', 'E', 'A', 'T', 'E'],
   ['D', 'R', 'O', 'P'],
   ['T', 'R', 'U', 'N', 'C', 'A', 'T', 'E'],
   ['A', 'L', 'T', 'E', 'R']]

/-- Case-insensitive keyword match: the (already upper-case) keyword
against the upper-cased leading characters of the statement. -/
def matchesKeyword : List Char → List Char → Bool
  | [], _ => true
  | _ :: _, [] => false
  | k :: ks, c :: cs => (k == Char.toUpper c) && matchesKeyword ks cs

/-- Modelled from the spec: `is_crud` from `psycopg_wrapper/validator.py`
(not among the sources) — a statement is a mutating CRUD statement when a
CRUD keyword matches at its start, case-insensitively. -/
def is_crud (q : String) : Bool :=
  crudKeywords.any fun k => matchesKeyword k q.data

/-- A pooled connection handle. `closedAtGet` is the value the
`connection.closed` attribute has when `_get_connection` inspects it;
`closedAtCursor` is its value when `_create_cursor` inspects it (the
attribute is owned by the driver and can change between the two reads). -/
structure Conn where
  cid : Nat
  closedAtGet : Nat
  closedAtCursor : Nat
deriving Repr, DecidableEq

/-- One answer of the pool to a `getconn()` call: a connection handle, a
raised `pool.PoolError`, or any other raised exception (the code has a
bare `except:` for those). -/
inductive PoolResp where
  | conn (c : Conn)
  | poolError
  | otherError
deriving Repr, DecidableEq

/-- Pool-facing state of one wrapper call: the pool's remaining `getconn`
answers, the ids it has handed out so far, and the ids given back via
`putconn`. -/
structure PoolState where
  pending : List PoolResp
  acquired : List Nat
  released : List Nat
deriving Repr, DecidableEq

/-- The retry loop of `_get_connection`, recursing over the pool's
successive answers: a closed handle or a raised pool error is dropped and
the call recurses; the first open connection is returned. Running out of
scripted answers (`none`) models the loop still retrying. -/
def getconnLoop : List PoolResp → List Nat → Option (Conn × List PoolResp × List Nat)
  | [], _ => none
  | PoolResp.conn c :: rest, acq =>
      if c.closedAtGet ≠ 0 then getconnLoop rest (acq ++ [c.cid])
      else some (c, rest, acq ++ [c.cid])
  | PoolResp.poolError :: rest, acq => getconnLoop rest acq
  | PoolResp.otherError :: rest, acq => getconnLoop rest acq

/-- Embeds `_get_connection` as a transition on the pool state. -/
def get_connection (s : PoolState) : Option (Conn × PoolState) :=
  match getconnLoop s.pending s.acquired with
  | none => none
  | some (c, rest, acq) => some (c, ⟨rest, acq, s.released⟩)

/-- A cursor, recording which connection it was created on. -/
structure Cursor where
  onConn : Nat
deriving Repr, DecidableEq

/-- Embeds `_create_cursor`: when the given connection reports closed, a
replacement is acquired from the pool and the cursor is created on it —
but the rebinding is local to `_create_cursor`, so the caller keeps the
original handle. -/
def create_cursor (c : Conn) (s : PoolState) : Option (Cursor × PoolState) :=
  if c.closedAtCursor ≠ 0 then
    match get_connection s with
    | none => none
    | some (c2, s2) => some (⟨c2.cid⟩, s2)
  else some (⟨c.cid⟩, s)

/-- Embeds `_close_cursor_connection`: closes the cursor and returns the
given connection to the pool. -/
def close_cursor_connection (c : Conn) (s : PoolState) : PoolState :=
  { s with released := s.released ++ [c.cid] }

/-- Observable actions of one wrapper call against the driver.
`rollback` is in the vocabulary although the wrapper never emits it: the
source contains no rollback call. -/
inductive Event where
  | setAutocommit
  | execute (q : String) (p : Option (List Param))
  | commit
  | fetchall
  | rollback
deriving Repr, DecidableEq

/-- Driver-side behaviour of the one statement a call executes:
whether `cursor.execute` raises (with an error code identifying the
exception), whether `cursor.description` is set afterwards, and what
`cursor.fetchall()` returns. -/
structure DbOracle where
  execFail : Option Nat
  description : Bool
  rows : List (List Param)
deriving Repr, DecidableEq

/-- The Python value `execute_query` returns on success: the list
`cursor.fetchall()` produced when `cursor.description` is set, else the
literal `True`. -/
inductive ExecResult where
  | rows (rs : List (List Param))
  | pyTrue
deriving Repr, DecidableEq

/-- Exceptions surfacing from a wrapper call: a driver error propagated
unchanged (identified by its code), or a Python `AttributeError` naming
the missing attribute. -/
inductive PyError where
  | dbError (code : Nat)
  | attributeError (attr : String)
deriving Repr, DecidableEq

/-- Attribute access on the value `execute_query` returns. That value is
either a list (the `fetchall` result) or the literal `True`; in Python
neither has the cursor attributes `rowcount`, `fetchone` or `fetchall`
that `insert`/`update`/`delete` look up on it, so the lookup raises
`AttributeError`. -/
def cursorAttr (v : ExecResult) (attr : String) : Except PyError ExecResult :=
  match v with
  | ExecResult.rows _ => Except.error (PyError.attributeError attr)
  | ExecResult.pyTrue => Except.error (PyError.attributeError attr)

/-- Result of one execution path: the value or exception, the final pool
state, and the trace of driver events. -/
abbrev RunResult := Except PyError ExecResult × PoolState × List Event

/-- Embeds `_execute_with_autocommit`: create a cursor (on a fresh
connection when the given one reports closed), execute, fetch when the
cursor has a description, then close the cursor and release the original
connection. A raised execution error propagates before any release. -/
def execute_with_autocommit (c : Conn) (q : String) (p : Option (List Param))
    (db : DbOracle) (s : PoolState) : Option RunResult :=
  match create_cursor c s with
  | none => none
  | some (_, s1) =>
    match db.execFail with
    | some code => some (Except.error (PyError.dbError code), s1, [Event.execute q p])
    | none =>
      if db.description then
        some (Except.ok (ExecResult.rows db.rows), close_cursor_connection c s1,
              [Event.execute q p, Event.fetchall])
      else
        some (Except.ok ExecResult.pyTrue, close_cursor_connection c s1,
              [Event.execute q p])

/-- Embeds `_execute_without_autocommit`: as the autocommit variant but
with `connection.commit()` right after the execute. -/
def execute_without_autocommit (c : Conn) (q : String) (p : Option (List Param))
    (db : DbOracle) (s : PoolState) : Option RunResult :=
  match create_cursor c s with
  | none => none
  | some (_, s1) =>
    match db.execFail with
    | some code => some (Except.error (PyError.dbError code), s1, [Event.execute q p])
    | none =>
      if db.description then
        some (Except.ok (ExecResult.rows db.rows), close_cursor_connection c s1,
              [Event.execute q p, Event.commit, Event.fetchall])
      else
        some (Except.ok ExecResult.pyTrue, close_cursor_connection c s1,
              [Event.execute q p, Event.commit])

/-- Embeds `execute_query`: acquire a connection; when the statement is
not CRUD, set autocommit on the connection and run the autocommit path,
else run the explicit-commit path. -/
def execute_query (q : String) (p : Option (List Param)) (db : DbOracle)
    (s : PoolState) : Option RunResult :=
  match get_connection s with
  | none => none
  | some (c, s1) =>
    if is_crud q then execute_without_autocommit c q p db s1
    else
      match execute_with_autocommit c q p db s1 with
      | none => none
      | some (r, s2, ev) => some (r, s2, Event.setAutocommit :: ev)

/-- Embeds `insert`: build the statement, run it through `execute_query`
with the data values as parameters, then evaluate
`cur.fetchone() if returning else cur.rowcount` on the returned value. -/
def insert (table : String) (data : List (String × Param))
    (returning : Option String) (db : DbOracle) (s : PoolState) : Option RunResult :=
  match execute_query (insert_sql table data returning)
      (some (data.map Prod.snd)) db s with
  | none => none
  | some (Except.error e, s1, ev) => some (Except.error e, s1, ev)
  | some (Except.ok cur, s1, ev) =>
      some (if truthyStr returning then cursorAttr cur "fetchone"
            else cursorAttr cur "rowcount", s1, ev)

/-- Embeds `select`: build the statement and call
`execute_query(sql)` — with no parameter argument at all. -/
def select (table : String) (fields : List String) (w : WhereArg)
    (o : Option (String × Option String)) (l off : Option Int)
    (db : DbOracle) (s : PoolState) : Option RunResult :=
  execute_query (select_sql table fields w o l off) none db s

/-- Embeds `update`: build statement and parameters, run them, then
evaluate `cur.fetchall() if returning else cur.rowcount`. -/
def update (table : String) (data : List (String × Param)) (w : WhereArg)
    (returning : Option String) (db : DbOracle) (s : PoolState) : Option RunResult :=
  match execute_query (update_sql table data w returning)
      (some (update_params data w)) db s with
  | none => none
  | some (Except.error e, s1, ev) => some (Except.error e, s1, ev)
  | some (Except.ok cur, s1, ev) =>
      some (if truthyStr returning then cursorAttr cur "fetchall"
            else cursorAttr cur "rowcount", s1, ev)

/-- Embeds `delete`: build statement and parameters, run them, then
evaluate `cur.fetchall() if returning else cur.rowcount`. -/
def delete (table : String) (w : WhereArg) (returning : Option String)
    (db : DbOracle) (s : PoolState) : Option RunResult :=
  match execute_query (delete_sql table w returning) (delete_params w) db s with
  | none => none
  | some (Except.error e, s1, ev) => some (Except.error e, s1, ev)
  | some (Except.ok cur, s1, ev) =>
      some (if truthyStr returning then cursorAttr cur "fetchall"
            else cursorAttr cur "rowcount", s1, ev)

/-- Modelled from the spec: the PostgreSQL server's handling of
`DROP TABLE`, which is external to this repository. With the
`IF EXISTS` qualifier, dropping a missing table succeeds and leaves the
catalog unchanged; without it, it raises an undefined-table error. -/
def pg_drop_table (existing : List String) (table : String)
    (ifExists : Bool) : Except String (List String) :=
  if existing.contains table then Except.ok (existing.filter (· ≠ table))
  else if ifExists then Except.ok existing
  else Except.error "undefined_table"

/-- The answer of one pool response when `_get_connection` inspects it:
an open connection is accepted, anything else causes a retry. -/
def respOpen : PoolResp → Option Conn
  | PoolResp.conn c => if c.closedAtGet = 0 then some c else none
  | PoolResp.poolError => none
  | PoolResp.otherError => none


/-- Helper: the retry loop of `_get_connection` yields exactly the first
pool answer that is an open connection, regardless of how many closed
handles or raised pool errors precede it. -/
theorem getconnLoop_fst_eq (pending : List PoolResp) (acq : List Nat) :
    (getconnLoop pending acq).map (fun r => r.1) = pending.findSome? respOpen := by
  induction pending generalizing acq with
  | nil => rfl
  | cons r rest ih =>
    cases r with
    | conn c =>
      by_cases hc : c.closedAtGet = 0
      · simp [getconnLoop, respOpen, hc, List.findSome?]
      · simp [getconnLoop, respOpen, hc, List.findSome?, ih]
    | poolError => simp [getconnLoop, respOpen, List.findSome?, ih]
    | otherError => simp [getconnLoop, respOpen, List.findSome?, ih]

/-- Helper: after any number of consecutive pool errors the retry loop
has still produced nothing — it neither raises nor gives up. -/
theorem getconnLoop_replicate_poolError (n : Nat) (acq : List Nat) :
    getconnLoop (List.replicate n PoolResp.poolError) acq = none := by
  induction n with
  | zero => rfl
  | succ n ih => simpa [List.replicate, getconnLoop] using ih

/-- Claim C1: the spec says `insert` returns the inserted row when
`returning` is set and the affected-row count otherwise. On the code,
`insert` evaluates `cur.rowcount` (resp. `cur.fetchone()`) on the value
`execute_query` returns — which is `True` (resp. the fetched row list),
not a cursor — so both paths raise `AttributeError` instead. This theorem
evaluates the embedding at the failing inputs `insert('t', {'a': 1})` and
`insert('t', {'a': 1}, returning='id')` with one open pooled connection
and a successful execution. -/
theorem insert_raises_attributeerror :
    (insert "t" [("a", 1)] none ⟨none, false, []⟩
        ⟨[PoolResp.conn ⟨1, 0, 0⟩], [], []⟩).map Prod.fst
      = some (Except.error (PyError.attributeError "rowcount"))
    ∧ (insert "t" [("a", 1)] (some "id") ⟨none, true, [[42]]⟩
        ⟨[PoolResp.conn ⟨1, 0, 0⟩], [], []⟩).map Prod.fst
      = some (Except.error (PyError.attributeError "fetchone")) :=
  ⟨rfl, rfl⟩

/-- Claim C2: the spec says `select(table, fields=['a','b'],
where=('a > %s', [5]))` executes `SELECT a,b FROM table WHERE a > %s`
with parameter list `[5]`. On the code, the built text joins fields with
a comma and a space (`SELECT a, b ...`) and — decisively — `select`
calls `execute_query(sql)` with no parameter argument, so the driver
receives `None` instead of `[5]`. This theorem evaluates the embedding at
that call and exhibits both divergences. -/
theorem select_drops_where_params :
    (select "table" ["a", "b"] (some ("a > %s", some [5])) none none none
        ⟨none, true, [[6]]⟩ ⟨[PoolResp.conn ⟨1, 0, 0⟩], [], []⟩).map (fun o => o.2.2)
      = some [Event.setAutocommit,
              Event.execute "SELECT a, b FROM table WHERE a > %s" none,
              Event.fetchall]
    ∧ ("SELECT a, b FROM table WHERE a > %s" : String) ≠ "SELECT a,b FROM table WHERE a > %s"
    ∧ (none : Option (List Param)) ≠ some [5] :=
  ⟨rfl, by decide, by decide⟩

/-- Claim C3: whenever `execute_query` completes a statement
successfully, the trace contains a commit exactly when the statement is
classified as CRUD, sets autocommit exactly when it is not, and always
executes the statement with its parameters; moreover every statement
starting with `SELECT ` is classified non-mutating and every statement
starting with `INSERT `/`UPDATE `/`DELETE ` is classified mutating. -/
theorem execute_query_commit_classification (q r : String) (p : Option (List Param))
    (db : DbOracle) (s : PoolState) (out : RunResult)
    (hok : db.execFail = none) (h : execute_query q p db s = some out) :
    (Event.commit ∈ out.2.2 ↔ is_crud q = true)
    ∧ (Event.setAutocommit ∈ out.2.2 ↔ is_crud q = false)
    ∧ Event.execute q p ∈ out.2.2
    ∧ is_crud ("SELECT " ++ r) = false
    ∧ is_crud ("INSERT " ++ r) = true
    ∧ is_crud ("UPDATE " ++ r) = true
    ∧ is_crud ("DELETE " ++ r) = true := by
  have trip : (Event.commit ∈ out.2.2 ↔ is_crud q = true)
      ∧ (Event.setAutocommit ∈ out.2.2 ↔ is_crud q = false)
      ∧ Event.execute q p ∈ out.2.2 := by
    unfold execute_query at h
    cases hg : get_connection s with
    | none => rw [hg] at h; simp at h
    | some cs =>
      obtain ⟨c, s1⟩ := cs
      rw [hg] at h
      simp only [] at h
      by_cases hcrud : is_crud q = true
      · rw [if_pos hcrud] at h
        unfold execute_without_autocommit at h
        cases hcc : create_cursor c s1 with
        | none => rw [hcc] at h; simp at h
        | some t =>
          obtain ⟨cur, s2⟩ := t
          rw [hcc, hok] at h
          simp only [] at h
          by_cases hd : db.description = true
          · rw [if_pos hd] at h
            have h2 := Option.some.inj h
            subst h2
            simp [hcrud]
          · rw [if_neg hd] at h
            have h2 := Option.some.inj h
            subst h2
            simp [hcrud]
      · rw [if_neg hcrud] at h
        unfold execute_with_autocommit at h
        cases hcc : create_cursor c s1 with
        | none => rw [hcc] at h; simp at h
        | some t =>
          obtain ⟨cur, s2⟩ := t
          rw [hcc, hok] at h
          simp only [] at h
          by_cases hd : db.description = true
          · rw [if_pos hd] at h
            have h2 := Option.some.inj h
            subst h2
            simp [hcrud]
          · rw [if_neg hd] at h
            have h2 := Option.some.inj h
            subst h2
            simp [hcrud]
  exact ⟨trip.1, trip.2.1, trip.2.2, rfl, rfl, rfl, rfl⟩

/-- Witness for claim C3: the classification theorem applied to the
concrete read statement `SELECT * FROM t` executed on one open pooled
connection. -/
theorem execute_query_commit_classification_witness :
    (Event.commit ∈ [Event.setAutocommit, Event.execute "SELECT * FROM t" none, Event.fetchall]
      ↔ is_crud "SELECT * FROM t" = true)
    ∧ (Event.setAutocommit
        ∈ [Event.setAutocommit, Event.execute "SELECT * FROM t" none, Event.fetchall]
      ↔ is_crud "SELECT * FROM t" = false)
    ∧ Event.execute "SELECT * FROM t" none
        ∈ [Event.setAutocommit, Event.execute "SELECT * FROM t" none, Event.fetchall]
    ∧ is_crud ("SELECT " ++ "x") = false
    ∧ is_crud ("INSERT " ++ "x") = true
    ∧ is_crud ("UPDATE " ++ "x") = true
    ∧ is_crud ("DELETE " ++ "x") = true :=
  execute_query_commit_classification "SELECT * FROM t" "x" none ⟨none, true, [[1]]⟩
    ⟨[PoolResp.conn ⟨1, 0, 0⟩], [], []⟩
    (Except.ok (ExecResult.rows [[1]]), ⟨[], [1], [1]⟩,
     [Event.setAutocommit, Event.execute "SELECT * FROM t" none, Event.fetchall])
    rfl rfl

/-- Claim C4: the spec says every connection acquired during a helper
call is returned to the pool exactly once, including the path where
`_create_cursor` acquires a replacement because the given connection
reports closed. On the code, `_create_cursor` rebinds `connection` only
locally, and `_close_cursor_connection` releases the caller's original
handle, so the replacement is never returned. The embedding evaluated at
that path: the pool hands out connections 1 (open at `getconn`, closed at
cursor creation) and 2 (open); both are acquired but only connection 1 is
released — connection 2 leaks. -/
theorem connection_leak_on_closed_cursor_path :
    (execute_query "SELECT 1" none ⟨none, true, [[1]]⟩
        ⟨[PoolResp.conn ⟨1, 0, 1⟩, PoolResp.conn ⟨2, 0, 0⟩], [], []⟩).map
        (fun o => (o.2.1.acquired, o.2.1.released))
      = some ([1, 2], [1])
    ∧ (2 : Nat) ∈ [1, 2] ∧ (2 : Nat) ∉ [1] :=
  ⟨rfl, by decide, by decide⟩

/-- Claim C5: `_get_connection` retries through every closed handle and
every raised pool error without bound, never raising, and produces
exactly the first open connection the pool yields: its result is the
first pool answer accepted by `respOpen`, and after any number `n` of
consecutive pool errors it has still neither raised nor returned. -/
theorem get_connection_retries_until_open (s : PoolState) :
    (get_connection s).map Prod.fst = s.pending.findSome? respOpen
    ∧ (∀ n : Nat,
        get_connection ⟨List.replicate n PoolResp.poolError, s.acquired, s.released⟩ = none) := by
  constructor
  · have h := getconnLoop_fst_eq s.pending s.acquired
    unfold get_connection
    cases hg : getconnLoop s.pending s.acquired with
    | none => rw [hg] at h; simpa using h
    | some t =>
      obtain ⟨c, rest, acq⟩ := t
      rw [hg] at h
      simpa using h
  · intro n
    unfold get_connection
    rw [getconnLoop_replicate_poolError]

/-- Claim C6: the spec says `update(table, {'x': 1}, where=('id = %s', [3]))`
builds `UPDATE table SET x=%s WHERE id = %s`, executes it with `[1, 3]`,
and returns the affected-row count. On the code the statement and the
parameters are exactly as claimed, but the function then evaluates
`cur.rowcount` on `execute_query`'s return value (`True`), raising
`AttributeError` instead of returning a count. -/
theorem update_builds_sql_but_raises :
    (update "table" [("x", 1)] (some ("id = %s", some [3])) none ⟨none, false, []⟩
        ⟨[PoolResp.conn ⟨1, 0, 0⟩], [], []⟩).map (fun o => o.2.2)
      = some [Event.execute "UPDATE table SET x=%s WHERE id = %s" (some [1, 3]),
              Event.commit]
    ∧ (update "table" [("x", 1)] (some ("id = %s", some [3])) none ⟨none, false, []⟩
        ⟨[PoolResp.conn ⟨1, 0, 0⟩], [], []⟩).map Prod.fst
      = some (Except.error (PyError.attributeError "rowcount")) :=
  ⟨rfl, rfl⟩

/-- Claim C7: when statement execution raises, the error reaches the
caller unchanged and the trace is exactly one execute event (preceded at
most by the autocommit toggle): no second execution attempt, no rollback
and no commit. -/
theorem execute_error_propagates_unchanged (q : String) (p : Option (List Param))
    (db : DbOracle) (s : PoolState) (code : Nat) (out : RunResult)
    (hf : db.execFail = some code) (h : execute_query q p db s = some out) :
    out.1 = Except.error (PyError.dbError code)
    ∧ (out.2.2 = [Event.execute q p] ∨ out.2.2 = [Event.setAutocommit, Event.execute q p])
    ∧ Event.rollback ∉ out.2.2
    ∧ Event.commit ∉ out.2.2 := by
  unfold execute_query at h
  cases hg : get_connection s with
  | none => rw [hg] at h; simp at h
  | some cs =>
    obtain ⟨c, s1⟩ := cs
    rw [hg] at h
    simp only [] at h
    by_cases hcrud : is_crud q = true
    · rw [if_pos hcrud] at h
      unfold execute_without_autocommit at h
      cases hcc : create_cursor c s1 with
      | none => rw [hcc] at h; simp at h
      | some t =>
        obtain ⟨cur, s2⟩ := t
        rw [hcc, hf] at h
        simp only [] at h
        have h2 := Option.some.inj h
        subst h2
        exact ⟨rfl, Or.inl rfl, by simp, by simp⟩
    · rw [if_neg hcrud] at h
      unfold execute_with_autocommit at h
      cases hcc : create_cursor c s1 with
      | none => rw [hcc] at h; simp at h
      | some t =>
        obtain ⟨cur, s2⟩ := t
        rw [hcc, hf] at h
        simp only [] at h
        have h2 := Option.some.inj h
        subst h2
        exact ⟨rfl, Or.inr rfl, by simp, by simp⟩

/-- Witness for claim C7: the propagation theorem applied to
`DELETE FROM t` failing with driver error 7 on one open pooled
connection. -/
theorem execute_error_propagates_unchanged_witness :
    (Except.error (PyError.dbError 7) : Except PyError ExecResult)
      = Except.error (PyError.dbError 7)
    ∧ (([Event.execute "DELETE FROM t" none] : List Event) = [Event.execute "DELETE FROM t" none]
       ∨ ([Event.execute "DELETE FROM t" none] : List Event)
         = [Event.setAutocommit, Event.execute "DELETE FROM t" none])
    ∧ Event.rollback ∉ ([Event.execute "DELETE FROM t" none] : List Event)
    ∧ Event.commit ∉ ([Event.execute "DELETE FROM t" none] : List Event) :=
  execute_error_propagates_unchanged "DELETE FROM t" none ⟨some 7, false, []⟩
    ⟨[PoolResp.conn ⟨1, 0, 0⟩], [], []⟩ 7
    (Except.error (PyError.dbError 7), ⟨[], [1], []⟩, [Event.execute "DELETE FROM t" none])
    rfl rfl

/-- Counterexample to claim C8: with an empty fields argument `select`
builds `SELECT  FROM t` (empty field list, two spaces), not
`SELECT * FROM t` — no `*` default exists in the code. -/
theorem select_empty_fields_not_star :
    select_sql "t" [] none none none none = "SELECT  FROM t"
    ∧ select_sql "t" [] none none none none ≠ "SELECT * FROM t" :=
  ⟨rfl, by decide⟩

/-- Claim C8 as amended: for every call to `select` with an empty fields
argument the built statement has an empty field list — it has the form
`SELECT  FROM <table> ...` and no `*` is substituted. -/
theorem select_empty_fields_sql (t : String) (w : WhereArg)
    (o : Option (String × Option String)) (l off : Option Int) :
    select_sql t [] w o l off
      = "SELECT  FROM " ++ t ++ whereClause w ++ orderClause o
        ++ limitClause l ++ offsetClause off := by
  unfold select_sql
  rw [show ("SELECT " ++ String.intercalate ", " ([] : List String) ++ " FROM " : String)
        = "SELECT  FROM " from rfl]

/-- Claim C9: when `update` or `delete` receives a one-element where
tuple (a fragment with no params list), the WHERE fragment is appended to
the statement text but no WHERE parameters are produced: `update` passes
only the new data values and `delete` passes no parameters at all. -/
theorem one_element_where_passes_no_params (table frag : String)
    (data : List (String × Param)) (ret : Option String) :
    update_sql table data (some (frag, none)) ret
      = "UPDATE " ++ table ++ " SET " ++ format_update data ++ " WHERE " ++ frag
        ++ returningClause ret
    ∧ update_params data (some (frag, none)) = data.map Prod.snd
    ∧ delete_sql table (some (frag, none)) ret
      = "DELETE FROM " ++ table ++ " WHERE " ++ frag ++ returningClause ret
    ∧ delete_params (some (frag, none)) = none := by
  refine ⟨?_, rfl, ?_, rfl⟩
  · unfold update_sql whereClause
    simp [String.append_assoc]
  · unfold delete_sql whereClause
    simp [String.append_assoc]

/-- Claim C10: `drop(t, cascade)` builds `DROP TABLE IF EXISTS t` with
` CASCADE` appended exactly when `cascade` is true, and — by the
spec-modelled database semantics of the `IF EXISTS` qualifier the
statement always carries — dropping a table absent from the catalog
succeeds rather than raising. -/
theorem drop_if_exists_semantics (t : String) (c : Bool) (existing : List String)
    (hmissing : existing.contains t = false) :
    drop_sql t c = "DROP TABLE IF EXISTS " ++ t ++ (if c then " CASCADE" else "")
    ∧ pg_drop_table existing t true = Except.ok existing := by
  constructor
  · cases c
    · simp [drop_sql]
    · simp [drop_sql]
  · unfold pg_drop_table
    rw [hmissing]
    simp

/-- Witness for claim C10: dropping the absent table `missing` from a
catalog holding only `a`, with cascade requested. -/
theorem drop_if_exists_semantics_witness :
    drop_sql "missing" true
      = "DROP TABLE IF EXISTS " ++ "missing" ++ (if true then " CASCADE" else "")
    ∧ pg_drop_table ["a"] "missing" true = Except.ok ["a"] :=
  drop_if_exists_semantics "missing" true ["a"] (by decide)

end PostgresWrapper
